import Mathlib

/-!
Verification development for the feedback-server milestone email scheduler.

The definitions below are a shallow embedding of:
  * `src/models/FeedbackTracker.js` (tracker schema, `createScheduledDates`,
    `markAsReviewed` / `markAsUnreviewed` / `cancelTracking`),
  * `src/services/emailScheduler.js` (`sendFeedbackEmail`,
    `processPendingEmails`, `RATE_LIMIT`),
  * the admin route `PATCH /feedback-trackers/:orderId/status`.

Instants are modelled as `Int` milliseconds; dates at date-only granularity
are modelled by a calendar type `JSDate` mirroring JavaScript `Date`
day-of-month arithmetic (`setDate(getDate() + k)` with month/year rollover).
External capabilities (SendGrid, template lookup, wall clock) are supplied
through an `Env` record of oracles, so every definition is executable.
-/

/-- Lifecycle status of a tracker; the schema enum
`['pending', 'reviewed', 'unreviewed', 'cancelled']`. -/
inductive Status where
  | pending
  | reviewed
  | unreviewed
  | cancelled
deriving DecidableEq, Repr

/-- The four milestone offsets (days 3, 7, 14, 30 after submission). -/
inductive Day where
  | d3
  | d7
  | d14
  | d30
deriving DecidableEq, Repr

/-- Numeric offset of a milestone, as used in log/error records. -/
def Day.toNat : Day → Nat
  | .d3 => 3
  | .d7 => 7
  | .d14 => 14
  | .d30 => 30

/-- One milestone slot (`EmailScheduleSchema`): scheduled date, sent flag,
sent timestamp, last error and provider message id. The `opened`/`clicked`
analytics fields play no role in the scheduler and are omitted. -/
structure Slot where
  scheduledDate : Int
  sent : Bool := false
  sentAt : Option Int := none
  error : Option String := none
  messageId : Option String := none
deriving DecidableEq, Repr

/-- The nested `emailSchedule` document: exactly four named slots. -/
structure EmailSchedule where
  day3 : Slot
  day7 : Slot
  day14 : Slot
  day30 : Slot
deriving DecidableEq, Repr

/-- A feedback tracker document. Display-only fields that the scheduler
never reads (asin, productName, productUrl, reviewUrl, submissionDate,
createdAt) are omitted; they do not affect any claim. -/
structure Tracker where
  orderId : String
  customerEmail : String
  customerName : String
  emailSchedule : EmailSchedule
  status : Status
  isActive : Bool
  updatedAt : Int
deriving DecidableEq, Repr

/-- Read the slot for a given milestone (`tracker.emailSchedule[dayKey]`). -/
def Tracker.slot (t : Tracker) : Day → Slot
  | .d3 => t.emailSchedule.day3
  | .d7 => t.emailSchedule.day7
  | .d14 => t.emailSchedule.day14
  | .d30 => t.emailSchedule.day30

/-- Replace the slot for a given milestone (assignment to
`tracker.emailSchedule[dayKey]` followed by `tracker.save()`). -/
def Tracker.setSlot (t : Tracker) (d : Day) (s : Slot) : Tracker :=
  match d with
  | .d3 => { t with emailSchedule := { t.emailSchedule with day3 := s } }
  | .d7 => { t with emailSchedule := { t.emailSchedule with day7 := s } }
  | .d14 => { t with emailSchedule := { t.emailSchedule with day14 := s } }
  | .d30 => { t with emailSchedule := { t.emailSchedule with day30 := s } }

/-- Mirror of the `RATE_LIMIT` constant object in `emailScheduler.js`. -/
structure RateLimitConfig where
  MAX_EMAILS_PER_RUN : Nat
  DELAY_BETWEEN_EMAILS : Nat
  MAX_DAILY_EMAILS : Nat
  VERCEL_TIMEOUT_MS : Nat
deriving DecidableEq, Repr

/-- `RATE_LIMIT = { MAX_EMAILS_PER_RUN: 10, DELAY_BETWEEN_EMAILS: 100,
MAX_DAILY_EMAILS: 100, VERCEL_TIMEOUT_MS: 8000 }`. -/
def RATE_LIMIT : RateLimitConfig :=
  { MAX_EMAILS_PER_RUN := 10
    DELAY_BETWEEN_EMAILS := 100
    MAX_DAILY_EMAILS := 100
    VERCEL_TIMEOUT_MS := 8000 }

/-- Milliseconds per calendar day. -/
def dayMs : Int := 86400000

/-- `const today = new Date(); today.setHours(0,0,0,0)`: the start of the
day containing the instant `t` (floor to a day boundary). -/
def startOfDay (t : Int) : Int := (Int.ediv t dayMs) * dayMs

/-- Outcome of one `sgMail.send(msg)` call: HTTP 202 with a message id,
an unexpected status code, or a thrown error. -/
inductive SendOutcome where
  | ok (messageId : String)
  | badStatus (code : Nat)
  | err (msg : String)
deriving DecidableEq, Repr

/-- Value returned by `sendFeedbackEmail` (`{success, messageId}` or
`{success:false, error}`), extended with the model-level observation
`mailInvoked`: whether `sgMail.send` was actually called. -/
structure SendResult where
  success : Bool
  messageId : Option String
  error : Option String
  mailInvoked : Bool
deriving DecidableEq, Repr

/-- Environment of external capabilities consumed by one pass:
SendGrid configuration, content resolution (template + subject, which may
reject before the mail API is contacted), the mail API itself, the instant
used for `new Date()` writes, the pass start instant, and the elapsed
wall-clock time observed at the top of each tracker iteration. -/
structure Env where
  apiKeyConfigured : Bool
  resolve : String → Day → Except String Unit
  send : String → Day → SendOutcome
  tnow : Int
  now : Int
  elapsedAt : Nat → Nat

/-- `sendFeedbackEmail(tracker, dayNumber)`. Branches, in source order:
missing API key records the error on the slot and returns failure without
contacting the mail API; a rejection thrown while resolving template or
subject is caught by the function's catch block, which records the error
and `sent=false`, again without contacting the mail API; otherwise
`sgMail.send` is called and a 202 marks the slot sent (with `sentAt`,
cleared `error`, provider `messageId`), while a bad status code or a
thrown error records the failure and `sent=false`. -/
def sendFeedbackEmail (env : Env) (t : Tracker) (d : Day) : Tracker × SendResult :=
  if env.apiKeyConfigured = false then
    let msg := "SendGrid API key not configured"
    (t.setSlot d { t.slot d with error := some msg },
     { success := false, messageId := none, error := some msg, mailInvoked := false })
  else
    match env.resolve t.orderId d with
    | .error msg =>
        (t.setSlot d { t.slot d with error := some msg, sent := false },
         { success := false, messageId := none, error := some msg, mailInvoked := false })
    | .ok _ =>
        match env.send t.orderId d with
        | .ok mid =>
            (t.setSlot d { t.slot d with
                sent := true
                sentAt := some env.tnow
                error := none
                messageId := some mid },
             { success := true, messageId := some mid, error := none, mailInvoked := true })
        | .badStatus c =>
            let msg := "Unexpected status code: " ++ toString c
            (t.setSlot d { t.slot d with error := some msg, sent := false },
             { success := false, messageId := none, error := some msg, mailInvoked := true })
        | .err msg =>
            (t.setSlot d { t.slot d with error := some msg, sent := false },
             { success := false, messageId := none, error := some msg, mailInvoked := true })

/-- The per-slot due condition used both by the Mongo query
(`sent: false, scheduledDate: { $gte: today, $lt: tomorrow }`) and by the
in-loop check (`!emailData.sent && emailData.scheduledDate >= today &&
emailData.scheduledDate < tomorrow`). -/
def dueClause (today tomorrow : Int) (s : Slot) : Bool :=
  !s.sent && decide (today ≤ s.scheduledDate) && decide (s.scheduledDate < tomorrow)

/-- The tracker-level Mongo query filter of `processPendingEmails`:
`isActive: true, status: 'pending'` with an `$or` over the four slots. -/
def trackerQuery (today tomorrow : Int) (t : Tracker) : Bool :=
  t.isActive && decide (t.status = Status.pending) &&
    (dueClause today tomorrow t.emailSchedule.day3 ||
     dueClause today tomorrow t.emailSchedule.day7 ||
     dueClause today tomorrow t.emailSchedule.day14 ||
     dueClause today tomorrow t.emailSchedule.day30)

/-- The four milestones. -/
def allDays : List Day := [Day.d3, Day.d7, Day.d14, Day.d30]

/-- Due-set predicate stated from the spec's words ("isActive=true and
status=pending that have at least one milestone slot with sent=false and
scheduledDate in [today, tomorrow)"), for comparison with `trackerQuery`. -/
def specDueFilter (today tomorrow : Int) (t : Tracker) : Bool :=
  t.isActive && decide (t.status = Status.pending) &&
    allDays.any (fun d => dueClause today tomorrow (t.slot d))

/-- The due-set selection of `processPendingEmails`: the query filter over
the store in insertion order, capped by `.limit(RATE_LIMIT.MAX_EMAILS_PER_RUN)`. -/
def selectDue (today tomorrow : Int) (db : List Tracker) : List Tracker :=
  (db.filter (trackerQuery today tomorrow)).take RATE_LIMIT.MAX_EMAILS_PER_RUN

/-- `const daysToCheck = [30, 14, 7, 3]` — priority, later days first. -/
def daysToCheck : List Day := [Day.d30, Day.d14, Day.d7, Day.d3]

/-- One send attempt recorded by the inner loop: the milestone chosen and
the result returned by `sendFeedbackEmail`. -/
structure Attempt where
  day : Day
  result : SendResult
deriving DecidableEq, Repr

/-- The inner `for (const day of daysToCheck)` loop: find the first unsent
due slot in priority order, call `sendFeedbackEmail` for it and `break`.
Returns the (possibly updated) tracker together with the list of
`sendFeedbackEmail` calls made (empty or a single attempt, mirroring the
`break`). -/
def findAndSend (env : Env) (today tomorrow : Int) (t : Tracker) :
    List Day → Tracker × List Attempt
  | [] => (t, [])
  | d :: rest =>
      if dueClause today tomorrow (t.slot d) then
        let p := sendFeedbackEmail env t d
        (p.1, [{ day := d, result := p.2 }])
      else
        findAndSend env today tomorrow t rest

/-- `markAsReviewed()` instance method. -/
def Tracker.markAsReviewed (t : Tracker) (tnow : Int) : Tracker :=
  { t with status := .reviewed, isActive := false, updatedAt := tnow }

/-- `markAsUnreviewed()` instance method. -/
def Tracker.markAsUnreviewed (t : Tracker) (tnow : Int) : Tracker :=
  { t with status := .unreviewed, isActive := false, updatedAt := tnow }

/-- `cancelTracking()` instance method. -/
def Tracker.cancelTracking (t : Tracker) (tnow : Int) : Tracker :=
  { t with status := .cancelled, isActive := false, updatedAt := tnow }

/-- The per-tracker body of the dispatch loop: run the inner send loop,
then the lifecycle check `if (tracker.emailSchedule.day30.sent &&
tracker.status === 'pending') await tracker.markAsUnreviewed()`. -/
def processTracker (env : Env) (today tomorrow : Int) (t : Tracker) :
    Tracker × List Attempt :=
  let p := findAndSend env today tomorrow t daysToCheck
  let t2 :=
    if p.1.emailSchedule.day30.sent && decide (p.1.status = Status.pending) then
      p.1.markAsUnreviewed env.tnow
    else p.1
  (t2, p.2)

/-- First unsent due slot in descending priority order, stated
independently of the loop as a `find?` over `daysToCheck`. -/
def firstDueSlot (today tomorrow : Int) (t : Tracker) : Option Day :=
  daysToCheck.find? (fun d => dueClause today tomorrow (t.slot d))

/-- One entry of `results.errors`: `{ orderId, day, error }`. -/
structure ErrEntry where
  orderId : String
  day : Day
  error : Option String
deriving DecidableEq, Repr

/-- The `results` summary object of `processPendingEmails`. -/
structure Results where
  processed : Nat := 0
  sent : Nat := 0
  failed : Nat := 0
  skipped : Nat := 0
  timedOut : Bool := false
  errors : List ErrEntry := []
deriving DecidableEq, Repr

/-- Update of the summary after one tracker: if a slot was attempted,
`processed++` and then either `sent++` or `failed++` with an error entry
pushed; otherwise the summary is unchanged. -/
def stepResults (r : Results) (oid : String) (atts : List Attempt) : Results :=
  match atts with
  | [] => r
  | a :: _ =>
      let rp := { r with processed := r.processed + 1 }
      if a.result.success then { rp with sent := rp.sent + 1 }
      else { rp with
        failed := rp.failed + 1
        errors := rp.errors ++ [{ orderId := oid, day := a.day, error := a.result.error }] }

/-- The outer `for (const tracker of trackers)` loop with timeout
protection: at the top of iteration `i`, if the elapsed time exceeds
`RATE_LIMIT.VERCEL_TIMEOUT_MS` the loop stops, setting `timedOut` and
`skipped = trackers.length - processed`; otherwise the tracker is
processed and its updated document saved. Returns the final summary and
the post-pass state of the iterated trackers. -/
def runPassAux (env : Env) (today tomorrow : Int) (total : Nat) :
    List Tracker → Nat → Results → Results × List Tracker
  | [], _, r => (r, [])
  | t :: rest, i, r =>
      if RATE_LIMIT.VERCEL_TIMEOUT_MS < env.elapsedAt i then
        ({ r with timedOut := true, skipped := total - r.processed }, t :: rest)
      else
        let p := processTracker env today tomorrow t
        let r1 := stepResults r t.orderId p.2
        let q := runPassAux env today tomorrow total rest (i + 1) r1
        (q.1, p.1 :: q.2)

/-- `processPendingEmails()`: compute `today`/`tomorrow`, select the due
set, and run the time-budgeted dispatch loop. Returns the summary and the
post-pass state of the selected trackers (all other store records are
untouched by the pass). The JavaScript function can only throw on a store
connectivity failure, which is outside the model; the model is total. -/
def processPendingEmails (env : Env) (db : List Tracker) : Results × List Tracker :=
  let today := startOfDay env.now
  let tomorrow := today + dayMs
  let selected := selectDue today tomorrow db
  runPassAux env today tomorrow selected.length selected 0 {}

/-- A JavaScript `Date` at date-only granularity: year, 0-based month
(JS convention) and 1-based day of month. -/
structure JSDate where
  year : Nat
  month : Nat
  day : Nat
deriving DecidableEq, Repr

/-- Gregorian leap-year rule. -/
def isLeap (y : Nat) : Bool := (y % 4 == 0 && y % 100 != 0) || y % 400 == 0

/-- Length of a month (0-based index); out-of-range indices default to 31
and are never reached from in-range inputs. -/
def daysInMonth (y : Nat) : Nat → Nat
  | 1 => if isLeap y then 29 else 28
  | 3 => 30
  | 5 => 30
  | 8 => 30
  | 10 => 30
  | _ => 31

/-- Number of days in the months of year `y` strictly before month `m`. -/
def daysBeforeMonth (y : Nat) : Nat → Nat
  | 0 => 0
  | m + 1 => daysBeforeMonth y m + daysInMonth y m

/-- Number of days in the years strictly before year `y`
(a year has `daysBeforeMonth y 12` days). -/
def daysBeforeYear : Nat → Nat
  | 0 => 0
  | y + 1 => daysBeforeYear y + daysBeforeMonth y 12

/-- Ordinal day number of a calendar date: day counts compare and
subtract like dates, so it expresses date arithmetic exactly. -/
def toRata (d : JSDate) : Nat :=
  daysBeforeYear d.year + daysBeforeMonth d.year d.month + d.day

/-- JavaScript `Date` day-of-month normalization: while the day exceeds
the month length, roll into the following month (and year after
December). The structural fuel bounds the rollover steps; since every
step removes at least 28 days, `fuel = day` always suffices, and the
fuel-exhausted branch returns the arguments unchanged. -/
def normalizeGo : Nat → Nat → Nat → Nat → JSDate
  | 0, y, m, day => { year := y, month := m, day := day }
  | fuel + 1, y, m, day =>
      if day ≤ daysInMonth y m then { year := y, month := m, day := day }
      else if m = 11 then normalizeGo fuel (y + 1) 0 (day - 31)
      else normalizeGo fuel y (m + 1) (day - daysInMonth y m)

/-- Normalize a (year, month, day) triple with a possibly overflowing day
of month into a calendar date. -/
def normalizeDate (y m day : Nat) : JSDate := normalizeGo day y m day

/-- `const x = new Date(submissionDate); x.setDate(x.getDate() + k)`:
add `k` to the day of month and normalize. -/
def setDatePlus (d : JSDate) (k : Nat) : JSDate :=
  normalizeDate d.year d.month (d.day + k)

/-- The value returned by the static `createScheduledDates(submissionDate)`:
exactly four named scheduled dates. -/
structure ScheduleDates where
  day3 : JSDate
  day7 : JSDate
  day14 : JSDate
  day30 : JSDate
deriving DecidableEq, Repr

/-- `FeedbackTrackerSchema.statics.createScheduledDates`: four slots at
offsets 3, 7, 14 and 30 days from the submission date. -/
def createScheduledDates (submissionDate : JSDate) : ScheduleDates :=
  { day3 := setDatePlus submissionDate 3
    day7 := setDatePlus submissionDate 7
    day14 := setDatePlus submissionDate 14
    day30 := setDatePlus submissionDate 30 }

/-- Tracker creation (the out-of-scope submission handler): schema
defaults `status: 'pending'`, `isActive: true`. -/
def createTracker (oid email name : String) (sched : EmailSchedule) : Tracker :=
  { orderId := oid
    customerEmail := email
    customerName := name
    emailSchedule := sched
    status := .pending
    isActive := true
    updatedAt := 0 }

/-- The admin route `PATCH /feedback-trackers/:orderId/status` with a
valid status in the request body: `reviewed`/`unreviewed`/`cancelled` go
through the lifecycle methods; the remaining valid value (`pending`) is
assigned directly with only `updatedAt` bumped. -/
def patchStatus (tnow : Int) (s : Status) (t : Tracker) : Tracker :=
  match s with
  | .reviewed => t.markAsReviewed tnow
  | .unreviewed => t.markAsUnreviewed tnow
  | .cancelled => t.cancelTracking tnow
  | .pending => { t with status := .pending, updatedAt := tnow }

/-- The operations of the program that can mutate a tracker after
creation: the lifecycle instance methods, the admin status route, and one
scheduler pass (which touches the tracker only if the due-set query
selects it). -/
inductive Op where
  | review (tnow : Int)
  | unreview (tnow : Int)
  | cancel (tnow : Int)
  | patch (tnow : Int) (s : Status)
  | pass (env : Env)

/-- Apply one operation to a tracker. -/
def applyOp (op : Op) (t : Tracker) : Tracker :=
  match op with
  | .review n => t.markAsReviewed n
  | .unreview n => t.markAsUnreviewed n
  | .cancel n => t.cancelTracking n
  | .patch n s => patchStatus n s t
  | .pass env =>
      let today := startOfDay env.now
      let tomorrow := today + dayMs
      if trackerQuery today tomorrow t then (processTracker env today tomorrow t).1 else t

/-- A tracker reachable from creation through a sequence of the program's
operations. -/
def reach (oid email name : String) (sched : EmailSchedule) (ops : List Op) : Tracker :=
  ops.foldl (fun t op => applyOp op t) (createTracker oid email name sched)

/-! ### Witness fixtures (concrete environments and trackers) -/

/-- Environment where every send is accepted with a fixed message id and
the second tracker iteration starts past the budget. -/
def envW : Env :=
  { apiKeyConfigured := true
    resolve := fun _ _ => .ok ()
    send := fun _ _ => .ok "sg-message-id"
    tnow := 1234
    now := 5
    elapsedAt := fun i => if i = 0 then 0 else 9000 }

/-- Environment where every send throws a transient error. -/
def envFail : Env :=
  { apiKeyConfigured := true
    resolve := fun _ _ => .ok ()
    send := fun _ _ => .err "transient SendGrid error"
    tnow := 777
    now := 5
    elapsedAt := fun _ => 0 }

/-- Environment where content resolution rejects. -/
def envResolveFail : Env :=
  { apiKeyConfigured := true
    resolve := fun _ _ => .error "template lookup failed"
    send := fun _ _ => .ok "m"
    tnow := 1
    now := 5
    elapsedAt := fun _ => 0 }

/-- A fresh slot scheduled at instant `x`. -/
def slotAt (x : Int) : Slot := { scheduledDate := x }

/-- A schedule with all four slots at instant `x`. -/
def schedAt (x : Int) : EmailSchedule :=
  { day3 := slotAt x, day7 := slotAt x, day14 := slotAt x, day30 := slotAt x }

/-- Concrete tracker with all slots due at instant 10. -/
def tW6 : Tracker := createTracker "o-6" "c@e.x" "C" (schedAt 10)

/-- Concrete tracker whose day-3 slot is already sent, day-7 due. -/
def tW2 : Tracker :=
  { orderId := "o-2"
    customerEmail := "a@b.c"
    customerName := "A"
    emailSchedule :=
      { day3 := { scheduledDate := 10, sent := true, sentAt := some 3 }
        day7 := slotAt 10
        day14 := slotAt 99999999999
        day30 := slotAt 99999999999 }
    status := .pending
    isActive := true
    updatedAt := 0 }

/-- Concrete tracker whose first three milestones are sent and whose
day-30 slot is due. -/
def tW8 : Tracker :=
  { orderId := "o-8"
    customerEmail := "x@y.z"
    customerName := "X"
    emailSchedule :=
      { day3 := { scheduledDate := 10, sent := true }
        day7 := { scheduledDate := 10, sent := true }
        day14 := { scheduledDate := 10, sent := true }
        day30 := slotAt 10 }
    status := .pending
    isActive := true
    updatedAt := 0 }

/-- Concrete due tracker for the budget scenario. -/
def tB1 : Tracker := createTracker "o-b1" "b1@e.x" "B1" (schedAt 10)

/-- Second concrete due tracker for the budget scenario. -/
def tB2 : Tracker := createTracker "o-b2" "b2@e.x" "B2" (schedAt 20)

/-- Store with two due trackers. -/
def dbW : List Tracker := [tB1, tB2]


/-! ### Helper lemmas -/

theorem setSlot_slot_self (t : Tracker) (d : Day) (s : Slot) :
    (t.setSlot d s).slot d = s := by
  cases d <;> rfl

theorem setSlot_slot_ne (t : Tracker) (d d' : Day) (s : Slot) (h : d' ≠ d) :
    (t.setSlot d s).slot d' = t.slot d' := by
  cases d <;> cases d' <;> first | rfl | exact absurd rfl h

theorem setSlot_status (t : Tracker) (d : Day) (s : Slot) :
    (t.setSlot d s).status = t.status := by
  cases d <;> rfl

theorem setSlot_isActive (t : Tracker) (d : Day) (s : Slot) :
    (t.setSlot d s).isActive = t.isActive := by
  cases d <;> rfl

theorem setSlot_orderId (t : Tracker) (d : Day) (s : Slot) :
    (t.setSlot d s).orderId = t.orderId := by
  cases d <;> rfl

theorem sendFeedbackEmail_eq_setSlot (env : Env) (t : Tracker) (d : Day) :
    ∃ s, (sendFeedbackEmail env t d).1 = t.setSlot d s := by
  unfold sendFeedbackEmail
  split
  · exact ⟨_, rfl⟩
  · split
    · exact ⟨_, rfl⟩
    · split <;> exact ⟨_, rfl⟩

theorem sendFeedbackEmail_slot_ne (env : Env) (t : Tracker) (d d' : Day) (h : d' ≠ d) :
    ((sendFeedbackEmail env t d).1).slot d' = t.slot d' := by
  obtain ⟨s, hs⟩ := sendFeedbackEmail_eq_setSlot env t d
  rw [hs, setSlot_slot_ne _ _ _ _ h]

theorem sendFeedbackEmail_status (env : Env) (t : Tracker) (d : Day) :
    ((sendFeedbackEmail env t d).1).status = t.status := by
  obtain ⟨s, hs⟩ := sendFeedbackEmail_eq_setSlot env t d
  rw [hs, setSlot_status]

theorem sendFeedbackEmail_isActive (env : Env) (t : Tracker) (d : Day) :
    ((sendFeedbackEmail env t d).1).isActive = t.isActive := by
  obtain ⟨s, hs⟩ := sendFeedbackEmail_eq_setSlot env t d
  rw [hs, setSlot_isActive]

theorem sendFeedbackEmail_orderId (env : Env) (t : Tracker) (d : Day) :
    ((sendFeedbackEmail env t d).1).orderId = t.orderId := by
  obtain ⟨s, hs⟩ := sendFeedbackEmail_eq_setSlot env t d
  rw [hs, setSlot_orderId]

theorem findAndSend_attempts (env : Env) (a b : Int) (t : Tracker) :
    ∀ ds : List Day,
      ((findAndSend env a b t ds).2).map Attempt.day
        = (ds.find? (fun d => dueClause a b (t.slot d))).toList := by
  intro ds
  induction ds with
  | nil => simp [findAndSend]
  | cons d rest ih =>
      by_cases h : dueClause a b (t.slot d) = true
      · simp [findAndSend, h, List.find?_cons_of_pos]
      · rw [Bool.not_eq_true] at h
        simp [findAndSend, h, List.find?_cons_of_neg, ih]

theorem findAndSend_status (env : Env) (a b : Int) (t : Tracker) :
    ∀ ds : List Day, ((findAndSend env a b t ds).1).status = t.status := by
  intro ds
  induction ds with
  | nil => rfl
  | cons d rest ih =>
      by_cases h : dueClause a b (t.slot d) = true
      · simp [findAndSend, h, sendFeedbackEmail_status]
      · rw [Bool.not_eq_true] at h
        simp [findAndSend, h, ih]

theorem findAndSend_isActive (env : Env) (a b : Int) (t : Tracker) :
    ∀ ds : List Day, ((findAndSend env a b t ds).1).isActive = t.isActive := by
  intro ds
  induction ds with
  | nil => rfl
  | cons d rest ih =>
      by_cases h : dueClause a b (t.slot d) = true
      · simp [findAndSend, h, sendFeedbackEmail_isActive]
      · rw [Bool.not_eq_true] at h
        simp [findAndSend, h, ih]

theorem findAndSend_slot_not_due (env : Env) (a b : Int) (t : Tracker) (d' : Day)
    (hnd : dueClause a b (t.slot d') = false) :
    ∀ ds : List Day, ((findAndSend env a b t ds).1).slot d' = t.slot d' := by
  intro ds
  induction ds with
  | nil => rfl
  | cons d rest ih =>
      by_cases h : dueClause a b (t.slot d) = true
      · have hne : d' ≠ d := by
          intro he
          rw [he] at hnd
          rw [h] at hnd
          exact Bool.noConfusion hnd
        simp [findAndSend, h, sendFeedbackEmail_slot_ne env t d d' hne]
      · rw [Bool.not_eq_true] at h
        simp [findAndSend, h, ih]

theorem markAsUnreviewed_slot (t : Tracker) (n : Int) (d : Day) :
    (t.markAsUnreviewed n).slot d = t.slot d := by
  cases d <;> rfl

theorem processTracker_slot_not_due (env : Env) (a b : Int) (t : Tracker) (d' : Day)
    (hnd : dueClause a b (t.slot d') = false) :
    ((processTracker env a b t).1).slot d' = t.slot d' := by
  have hfs := findAndSend_slot_not_due env a b t d' hnd daysToCheck
  simp only [processTracker]
  split
  · rw [markAsUnreviewed_slot, hfs]
  · exact hfs

theorem processTracker_attempts (env : Env) (a b : Int) (t : Tracker) :
    ((processTracker env a b t).2).map Attempt.day
      = (firstDueSlot a b t).toList := by
  unfold processTracker firstDueSlot
  exact findAndSend_attempts env a b t daysToCheck

/-! ### Claim theorems -/

/-- C1: for every tracker processed in a pass, at most one milestone email
is sent (the attempt list of `processTracker` has at most one element),
and the milestone attempted is exactly the first unsent due slot found
when examining offsets in the descending order 30, 14, 7, 3
(`firstDueSlot`, a `find?` over `daysToCheck`). -/
theorem processTracker_at_most_one_send (env : Env) (a b : Int) (t : Tracker) :
    (processTracker env a b t).2.length ≤ 1 ∧
    ((processTracker env a b t).2).map Attempt.day = (firstDueSlot a b t).toList := by
  refine ⟨?_, processTracker_attempts env a b t⟩
  have h := processTracker_attempts env a b t
  have hl : ((processTracker env a b t).2).length
      = ((firstDueSlot a b t).toList).length := by
    rw [← h, List.length_map]
  rw [hl]
  cases firstDueSlot a b t <;> simp

/-- C2: for a tracker whose day-3 slot is already `sent=true`, a pass
performs zero additional sends for that slot — the day-3 slot (all of its
fields) is unchanged by `processTracker`, and no send attempt targets
day 3. -/
theorem processTracker_day3_idempotent (env : Env) (a b : Int) (t : Tracker)
    (h : t.emailSchedule.day3.sent = true) :
    ((processTracker env a b t).1).emailSchedule.day3 = t.emailSchedule.day3 ∧
    ∀ x ∈ (processTracker env a b t).2, x.day ≠ Day.d3 := by
  have hnd : dueClause a b (t.slot Day.d3) = false := by
    simp [dueClause, Tracker.slot, h]
  constructor
  · have := processTracker_slot_not_due env a b t Day.d3 hnd
    simpa [Tracker.slot] using this
  · intro x hx hxd
    have hmem : Day.d3 ∈ ((processTracker env a b t).2).map Attempt.day := by
      rw [← hxd]
      exact List.mem_map_of_mem Attempt.day hx
    rw [processTracker_attempts env a b t] at hmem
    have hsome : firstDueSlot a b t = some Day.d3 := by
      cases hf : firstDueSlot a b t with
      | none => rw [hf] at hmem; simp at hmem
      | some d => rw [hf] at hmem; simp at hmem; rw [hmem]
    have hp := List.find?_some hsome
    rw [hnd] at hp
    exact Bool.noConfusion hp

/-- C2 witness: concrete tracker with day-3 sent; the pass leaves the
day-3 slot untouched and attempts no day-3 send. -/
theorem processTracker_day3_idempotent_witness :
    ((processTracker envW 0 86400000 tW2).1).emailSchedule.day3 = tW2.emailSchedule.day3 ∧
    ∀ x ∈ (processTracker envW 0 86400000 tW2).2, x.day ≠ Day.d3 :=
  processTracker_day3_idempotent envW 0 86400000 tW2 rfl

/-- C6: when the mail capability accepts (HTTP 202 with a message id),
`sendFeedbackEmail` sets the slot's `sent=true`, `sentAt` to the current
instant, clears `error`, records the provider `messageId`, leaves the
`scheduledDate` unchanged, and returns success with that id. -/
theorem sendFeedbackEmail_success_updates (env : Env) (t : Tracker) (d : Day) (mid : String)
    (hk : env.apiKeyConfigured = true)
    (hr : env.resolve t.orderId d = .ok ())
    (hs : env.send t.orderId d = .ok mid) :
    (((sendFeedbackEmail env t d).1).slot d).sent = true ∧
    (((sendFeedbackEmail env t d).1).slot d).sentAt = some env.tnow ∧
    (((sendFeedbackEmail env t d).1).slot d).error = none ∧
    (((sendFeedbackEmail env t d).1).slot d).messageId = some mid ∧
    (((sendFeedbackEmail env t d).1).slot d).scheduledDate = (t.slot d).scheduledDate ∧
    (sendFeedbackEmail env t d).2.success = true ∧
    (sendFeedbackEmail env t d).2.messageId = some mid := by
  simp [sendFeedbackEmail, hk, hr, hs, setSlot_slot_self]

/-- C6 witness: a concrete accepted send marks the day-7 slot sent. -/
theorem sendFeedbackEmail_success_updates_witness :
    (((sendFeedbackEmail envW tW6 Day.d7).1).slot Day.d7).sent = true ∧
    (((sendFeedbackEmail envW tW6 Day.d7).1).slot Day.d7).sentAt = some envW.tnow ∧
    (((sendFeedbackEmail envW tW6 Day.d7).1).slot Day.d7).error = none ∧
    (((sendFeedbackEmail envW tW6 Day.d7).1).slot Day.d7).messageId = some "sg-message-id" ∧
    (((sendFeedbackEmail envW tW6 Day.d7).1).slot Day.d7).scheduledDate
      = (tW6.slot Day.d7).scheduledDate ∧
    (sendFeedbackEmail envW tW6 Day.d7).2.success = true ∧
    (sendFeedbackEmail envW tW6 Day.d7).2.messageId = some "sg-message-id" :=
  sendFeedbackEmail_success_updates envW tW6 Day.d7 "sg-message-id" rfl rfl rfl

/-- C7: when the mail capability throws, `sendFeedbackEmail` leaves the
slot unsent (`sent=false`, `sentAt` still null when it was null), records
the failure message in `error`, and returns a non-fatal failure; a
subsequent successful attempt for the same slot clears `error` and sets
`sent=true` (with `sentAt` set). No retry counter exists in the data
model. -/
theorem sendFeedbackEmail_failure_then_retry (env env2 : Env) (t : Tracker) (d : Day)
    (msg mid : String)
    (hk : env.apiKeyConfigured = true)
    (hr : env.resolve t.orderId d = .ok ())
    (hs : env.send t.orderId d = .err msg)
    (h0 : (t.slot d).sentAt = none)
    (hk2 : env2.apiKeyConfigured = true)
    (hr2 : env2.resolve t.orderId d = .ok ())
    (hs2 : env2.send t.orderId d = .ok mid) :
    (((sendFeedbackEmail env t d).1).slot d).sent = false ∧
    (((sendFeedbackEmail env t d).1).slot d).sentAt = none ∧
    (((sendFeedbackEmail env t d).1).slot d).error = some msg ∧
    (sendFeedbackEmail env t d).2.success = false ∧
    (((sendFeedbackEmail env2 (sendFeedbackEmail env t d).1 d).1).slot d).sent = true ∧
    (((sendFeedbackEmail env2 (sendFeedbackEmail env t d).1 d).1).slot d).error = none ∧
    (((sendFeedbackEmail env2 (sendFeedbackEmail env t d).1 d).1).slot d).sentAt
      = some env2.tnow := by
  simp [sendFeedbackEmail, hk, hr, hs, hk2, hr2, hs2, setSlot_slot_self, setSlot_orderId, h0]

/-- C7 witness: concrete transient failure on day 7 then a successful
retry. -/
theorem sendFeedbackEmail_failure_then_retry_witness :
    (((sendFeedbackEmail envFail tW6 Day.d7).1).slot Day.d7).sent = false ∧
    (((sendFeedbackEmail envFail tW6 Day.d7).1).slot Day.d7).sentAt = none ∧
    (((sendFeedbackEmail envFail tW6 Day.d7).1).slot Day.d7).error
      = some "transient SendGrid error" ∧
    (sendFeedbackEmail envFail tW6 Day.d7).2.success = false ∧
    (((sendFeedbackEmail envW (sendFeedbackEmail envFail tW6 Day.d7).1 Day.d7).1).slot
        Day.d7).sent = true ∧
    (((sendFeedbackEmail envW (sendFeedbackEmail envFail tW6 Day.d7).1 Day.d7).1).slot
        Day.d7).error = none ∧
    (((sendFeedbackEmail envW (sendFeedbackEmail envFail tW6 Day.d7).1 Day.d7).1).slot
        Day.d7).sentAt = some envW.tnow :=
  sendFeedbackEmail_failure_then_retry envFail envW tW6 Day.d7
    "transient SendGrid error" "sg-message-id" rfl rfl rfl rfl rfl rfl rfl

/-- C10: when content resolution rejects, the failure is recorded on the
slot (`error` set, `sent=false`) and the mail capability is never
contacted (`mailInvoked = false`); the call returns a non-fatal failure. -/
theorem sendFeedbackEmail_resolve_failure (env : Env) (t : Tracker) (d : Day) (msg : String)
    (hk : env.apiKeyConfigured = true)
    (hr : env.resolve t.orderId d = .error msg) :
    (sendFeedbackEmail env t d).2.mailInvoked = false ∧
    (((sendFeedbackEmail env t d).1).slot d).error = some msg ∧
    (((sendFeedbackEmail env t d).1).slot d).sent = false ∧
    (sendFeedbackEmail env t d).2.success = false := by
  simp [sendFeedbackEmail, hk, hr, setSlot_slot_self]

/-- C10 witness: concrete resolution failure on day 14. -/
theorem sendFeedbackEmail_resolve_failure_witness :
    (sendFeedbackEmail envResolveFail tW6 Day.d14).2.mailInvoked = false ∧
    (((sendFeedbackEmail envResolveFail tW6 Day.d14).1).slot Day.d14).error
      = some "template lookup failed" ∧
    (((sendFeedbackEmail envResolveFail tW6 Day.d14).1).slot Day.d14).sent = false ∧
    (sendFeedbackEmail envResolveFail tW6 Day.d14).2.success = false :=
  sendFeedbackEmail_resolve_failure envResolveFail tW6 Day.d14 "template lookup failed" rfl rfl

theorem trackerQuery_eq_specDue (a b : Int) (t : Tracker) :
    trackerQuery a b t = specDueFilter a b t := by
  simp only [trackerQuery, specDueFilter, allDays, List.any_cons, List.any_nil,
    Tracker.slot, Bool.or_false, Bool.or_assoc]

/-- C3: the due-set selection of `processPendingEmails` (with `today` the
start of the day containing `now` and `tomorrow` one day later) returns
exactly the trackers with `isActive=true`, `status=pending` and at least
one milestone slot unsent and scheduled in `[today, tomorrow)` — in store
order, truncated to the configured maximum batch size — and never more
than 10 trackers. -/
theorem selectDue_exactly (now : Int) (db : List Tracker) :
    selectDue (startOfDay now) (startOfDay now + dayMs) db
      = (db.filter (specDueFilter (startOfDay now) (startOfDay now + dayMs))).take 10 ∧
    (selectDue (startOfDay now) (startOfDay now + dayMs) db).length ≤ 10 ∧
    ∀ t ∈ selectDue (startOfDay now) (startOfDay now + dayMs) db,
      specDueFilter (startOfDay now) (startOfDay now + dayMs) t = true := by
  refine ⟨?_, ?_, ?_⟩
  · unfold selectDue
    rw [List.filter_congr (fun t _ => trackerQuery_eq_specDue _ _ t)]
    rfl
  · exact List.length_take_le _ _
  · intro t ht
    unfold selectDue at ht
    have h1 := List.take_subset _ _ ht
    have h2 := (List.mem_filter.mp h1).2
    rwa [trackerQuery_eq_specDue] at h2

/-- C8: in any pass after which a pending tracker's day-30 slot is sent,
the per-tracker processing step transitions the tracker to `unreviewed`
and clears `isActive` (the lifecycle check after the send loop). -/
theorem processTracker_day30_close (env : Env) (a b : Int) (t : Tracker)
    (hp : t.status = Status.pending)
    (hs : ((processTracker env a b t).1).emailSchedule.day30.sent = true) :
    ((processTracker env a b t).1).status = Status.unreviewed ∧
    ((processTracker env a b t).1).isActive = false := by
  have hst : ((findAndSend env a b t daysToCheck).1).status = t.status :=
    findAndSend_status env a b t daysToCheck
  cases hc : ((findAndSend env a b t daysToCheck).1.emailSchedule.day30.sent &&
      decide ((findAndSend env a b t daysToCheck).1.status = Status.pending)) with
  | true => constructor <;> simp [processTracker, hc, Tracker.markAsUnreviewed]
  | false =>
      exfalso
      have h30 : (findAndSend env a b t daysToCheck).1.emailSchedule.day30.sent = true := by
        simpa [processTracker, hc] using hs
      rw [h30, hst, hp] at hc
      simp at hc

/-- C8 witness: a concrete pending tracker whose due day-30 send is
accepted ends the pass as `unreviewed` and inactive. -/
theorem processTracker_day30_close_witness :
    ((processTracker envW 0 86400000 tW8).1).status = Status.unreviewed ∧
    ((processTracker envW 0 86400000 tW8).1).isActive = false :=
  processTracker_day30_close envW 0 86400000 tW8 rfl (by decide)

theorem normalizeGo_toRata :
    ∀ fuel y m day : Nat,
      toRata (normalizeGo fuel y m day) = daysBeforeYear y + daysBeforeMonth y m + day := by
  intro fuel
  induction fuel with
  | zero => intro y m day; rfl
  | succ f ih =>
      intro y m day
      unfold normalizeGo
      by_cases h1 : day ≤ daysInMonth y m
      · rw [if_pos h1]
        rfl
      · rw [if_neg h1]
        by_cases h2 : m = 11
        · subst h2
          rw [if_pos rfl, ih]
          have hdim : daysInMonth y 11 = 31 := rfl
          have h12 : daysBeforeMonth y 12 = daysBeforeMonth y 11 + daysInMonth y 11 := rfl
          have hy1 : daysBeforeYear (y + 1) = daysBeforeYear y + daysBeforeMonth y 12 := rfl
          have h0 : daysBeforeMonth (y + 1) 0 = 0 := rfl
          rw [hdim] at h1 h12
          omega
        · rw [if_neg h2, ih]
          have hm : daysBeforeMonth y (m + 1) = daysBeforeMonth y m + daysInMonth y m := rfl
          omega

/-- C4: `createScheduledDates` yields exactly four milestone dates, whose
day ordinals (`toRata`, exact date arithmetic including month and year
rollover of the JavaScript `setDate` calls) equal the submission date
plus 3, 7, 14 and 30 days respectively. -/
theorem createScheduledDates_exact_offsets (d : JSDate) :
    toRata (createScheduledDates d).day3 = toRata d + 3 ∧
    toRata (createScheduledDates d).day7 = toRata d + 7 ∧
    toRata (createScheduledDates d).day14 = toRata d + 14 ∧
    toRata (createScheduledDates d).day30 = toRata d + 30 := by
  have h : ∀ k : Nat, toRata (setDatePlus d k) = toRata d + k := by
    intro k
    unfold setDatePlus normalizeDate
    rw [normalizeGo_toRata]
    unfold toRata
    omega
  exact ⟨h 3, h 7, h 14, h 30⟩

theorem stepResults_processed (r : Results) (oid : String) (atts : List Attempt)
    (h : atts ≠ []) : (stepResults r oid atts).processed = r.processed + 1 := by
  cases atts with
  | nil => exact absurd rfl h
  | cons a rest => cases ha : a.result.success <;> simp [stepResults, ha]

theorem trackerQuery_firstDue_isSome (a b : Int) (t : Tracker)
    (h : trackerQuery a b t = true) : (firstDueSlot a b t).isSome = true := by
  unfold trackerQuery at h
  simp only [Bool.and_eq_true, Bool.or_eq_true] at h
  obtain ⟨-, h4⟩ := h
  unfold firstDueSlot
  rw [List.find?_isSome]
  rcases h4 with ((h4 | h4) | h4) | h4
  · exact ⟨Day.d3, by simp [daysToCheck], by simpa [Tracker.slot] using h4⟩
  · exact ⟨Day.d7, by simp [daysToCheck], by simpa [Tracker.slot] using h4⟩
  · exact ⟨Day.d14, by simp [daysToCheck], by simpa [Tracker.slot] using h4⟩
  · exact ⟨Day.d30, by simp [daysToCheck], by simpa [Tracker.slot] using h4⟩

theorem processTracker_attempts_ne_nil (env : Env) (a b : Int) (t : Tracker)
    (h : trackerQuery a b t = true) : (processTracker env a b t).2 ≠ [] := by
  intro hnil
  have hmap := processTracker_attempts env a b t
  rw [hnil] at hmap
  have hsome := trackerQuery_firstDue_isSome a b t h
  cases hf : firstDueSlot a b t with
  | none => rw [hf] at hsome; simp at hsome
  | some d => rw [hf] at hmap; simp at hmap

theorem runPassAux_budget (env : Env) (a b : Int) (total : Nat) :
    ∀ (K : Nat) (ts : List Tracker) (i : Nat) (r : Results),
      (∀ t ∈ ts, trackerQuery a b t = true) →
      K < ts.length →
      (∀ j, j < K → env.elapsedAt (i + j) ≤ RATE_LIMIT.VERCEL_TIMEOUT_MS) →
      RATE_LIMIT.VERCEL_TIMEOUT_MS < env.elapsedAt (i + K) →
      (runPassAux env a b total ts i r).1.timedOut = true ∧
      (runPassAux env a b total ts i r).1.processed = r.processed + K ∧
      (runPassAux env a b total ts i r).1.skipped = total - (r.processed + K) ∧
      (runPassAux env a b total ts i r).2
        = (ts.take K).map (fun t => (processTracker env a b t).1) ++ ts.drop K := by
  intro K
  induction K with
  | zero =>
      intro ts i r hq hlen hle hgt
      cases ts with
      | nil => simp at hlen
      | cons t rest =>
          rw [Nat.add_zero] at hgt
          refine ⟨?_, ?_, ?_, ?_⟩ <;> simp [runPassAux, hgt]
  | succ K ih =>
      intro ts i r hq hlen hle hgt
      cases ts with
      | nil => simp at hlen
      | cons t rest =>
          have hnle : ¬ RATE_LIMIT.VERCEL_TIMEOUT_MS < env.elapsedAt i := by
            have h0 := hle 0 (Nat.succ_pos K)
            rw [Nat.add_zero] at h0
            omega
          have hqt : trackerQuery a b t = true := hq t (List.mem_cons_self t rest)
          have hne := processTracker_attempts_ne_nil env a b t hqt
          have hstep : (stepResults r t.orderId (processTracker env a b t).2).processed
              = r.processed + 1 := stepResults_processed _ _ _ hne
          have hrest : ∀ u ∈ rest, trackerQuery a b u = true :=
            fun u hu => hq u (List.mem_cons_of_mem _ hu)
          have hlen2 : K < rest.length := by
            simp only [List.length_cons] at hlen
            omega
          have hle2 : ∀ j, j < K →
              env.elapsedAt ((i + 1) + j) ≤ RATE_LIMIT.VERCEL_TIMEOUT_MS := by
            intro j hj
            have hh := hle (j + 1) (by omega)
            rwa [show i + (j + 1) = (i + 1) + j by omega] at hh
          have hgt2 : RATE_LIMIT.VERCEL_TIMEOUT_MS < env.elapsedAt ((i + 1) + K) := by
            rwa [show i + (K + 1) = (i + 1) + K by omega] at hgt
          obtain ⟨iht, ihp, ihs, iho⟩ :=
            ih rest (i + 1) (stepResults r t.orderId (processTracker env a b t).2)
              hrest hlen2 hle2 hgt2
          have hun : runPassAux env a b total (t :: rest) i r
              = ((runPassAux env a b total rest (i + 1)
                    (stepResults r t.orderId (processTracker env a b t).2)).1,
                 (processTracker env a b t).1
                   :: (runPassAux env a b total rest (i + 1)
                        (stepResults r t.orderId (processTracker env a b t).2)).2) := by
            simp [runPassAux, hnle]
          rw [hun]
          refine ⟨iht, ?_, ?_, ?_⟩
          · rw [ihp, hstep]
            omega
          · rw [ihs, hstep]
            omega
          · rw [iho]
            simp [List.take_succ_cons, List.drop_succ_cons]

/-- C5: if the wall-clock budget (8000 ms) has not elapsed before any of
the first `K` tracker iterations but has elapsed at iteration `K`
(`K < N` with `N` the size of the due batch), the pass stops early and
returns (it never throws — the model is a total function): `timedOut` is
true, `processed = K`, `skipped = N - K`, the first `K` selected trackers
are exactly the ones updated by their per-tracker processing step, and
the remaining `N - K` are untouched. -/
theorem processPendingEmails_budget (env : Env) (db : List Tracker) (K : Nat)
    (hK : K < (selectDue (startOfDay env.now) (startOfDay env.now + dayMs) db).length)
    (hle : ∀ j, j < K → env.elapsedAt j ≤ RATE_LIMIT.VERCEL_TIMEOUT_MS)
    (hgt : RATE_LIMIT.VERCEL_TIMEOUT_MS < env.elapsedAt K) :
    (processPendingEmails env db).1.timedOut = true ∧
    (processPendingEmails env db).1.processed = K ∧
    (processPendingEmails env db).1.skipped
      = (selectDue (startOfDay env.now) (startOfDay env.now + dayMs) db).length - K ∧
    (processPendingEmails env db).2
      = ((selectDue (startOfDay env.now) (startOfDay env.now + dayMs) db).take K).map
          (fun t => (processTracker env (startOfDay env.now) (startOfDay env.now + dayMs) t).1)
        ++ (selectDue (startOfDay env.now) (startOfDay env.now + dayMs) db).drop K := by
  have hq : ∀ t ∈ selectDue (startOfDay env.now) (startOfDay env.now + dayMs) db,
      trackerQuery (startOfDay env.now) (startOfDay env.now + dayMs) t = true := by
    intro t ht
    have h1 := List.take_subset _ _ ht
    exact (List.mem_filter.mp h1).2
  have hle0 : ∀ j, j < K →
      env.elapsedAt (0 + j) ≤ RATE_LIMIT.VERCEL_TIMEOUT_MS := by
    intro j hj
    rw [Nat.zero_add]
    exact hle j hj
  have hgt0 : RATE_LIMIT.VERCEL_TIMEOUT_MS < env.elapsedAt (0 + K) := by
    rw [Nat.zero_add]
    exact hgt
  have h := runPassAux_budget env (startOfDay env.now) (startOfDay env.now + dayMs)
      (selectDue (startOfDay env.now) (startOfDay env.now + dayMs) db).length K
      (selectDue (startOfDay env.now) (startOfDay env.now + dayMs) db) 0 {} hq hK hle0 hgt0
  simpa [processPendingEmails] using h

/-- C5 witness: with two due trackers and a budget that elapses after the
first, the pass times out with `processed = 1`, `skipped = 1`, the first
tracker updated and the second untouched. -/
theorem processPendingEmails_budget_witness :
    (processPendingEmails envW dbW).1.timedOut = true ∧
    (processPendingEmails envW dbW).1.processed = 1 ∧
    (processPendingEmails envW dbW).1.skipped
      = (selectDue (startOfDay envW.now) (startOfDay envW.now + dayMs) dbW).length - 1 ∧
    (processPendingEmails envW dbW).2
      = ((selectDue (startOfDay envW.now) (startOfDay envW.now + dayMs) dbW).take 1).map
          (fun t => (processTracker envW (startOfDay envW.now) (startOfDay envW.now + dayMs) t).1)
        ++ (selectDue (startOfDay envW.now) (startOfDay envW.now + dayMs) dbW).drop 1 :=
  processPendingEmails_budget envW dbW 1 (by decide) (by decide) (by decide)

theorem processTracker_status_cases (env : Env) (a b : Int) (t : Tracker) :
    (((processTracker env a b t).1).status = t.status ∧
     ((processTracker env a b t).1).isActive = t.isActive) ∨
    (((processTracker env a b t).1).status = Status.unreviewed ∧
     ((processTracker env a b t).1).isActive = false) := by
  simp only [processTracker]
  split
  · right
    exact ⟨rfl, rfl⟩
  · left
    exact ⟨findAndSend_status env a b t daysToCheck, findAndSend_isActive env a b t daysToCheck⟩

theorem applyOp_forward (op : Op) (t : Tracker)
    (h : t.status ≠ Status.pending → t.isActive = false) :
    (applyOp op t).status ≠ Status.pending → (applyOp op t).isActive = false := by
  cases op with
  | review n => intro hc; rfl
  | unreview n => intro hc; rfl
  | cancel n => intro hc; rfl
  | patch n s =>
      cases s with
      | pending => intro hc; exact absurd rfl hc
      | reviewed => intro hc; rfl
      | unreviewed => intro hc; rfl
      | cancelled => intro hc; rfl
  | pass env =>
      simp only [applyOp]
      split
      · rcases processTracker_status_cases env (startOfDay env.now)
            (startOfDay env.now + dayMs) t with ⟨hs, ha⟩ | ⟨hs, ha⟩
        · intro hc
          rw [ha]
          exact h (by rwa [hs] at hc)
        · intro hc
          exact ha
      · exact h

theorem applyOp_iff (op : Op) (t : Tracker)
    (hop : ∀ n, op ≠ Op.patch n Status.pending)
    (h : t.isActive = false ↔ t.status ≠ Status.pending) :
    (applyOp op t).isActive = false ↔ (applyOp op t).status ≠ Status.pending := by
  cases op with
  | review n => simp [applyOp, Tracker.markAsReviewed]
  | unreview n => simp [applyOp, Tracker.markAsUnreviewed]
  | cancel n => simp [applyOp, Tracker.cancelTracking]
  | patch n s =>
      cases s with
      | pending => exact absurd rfl (hop n)
      | reviewed => simp [applyOp, patchStatus, Tracker.markAsReviewed]
      | unreviewed => simp [applyOp, patchStatus, Tracker.markAsUnreviewed]
      | cancelled => simp [applyOp, patchStatus, Tracker.cancelTracking]
  | pass env =>
      simp only [applyOp]
      split
      · rcases processTracker_status_cases env (startOfDay env.now)
            (startOfDay env.now + dayMs) t with ⟨hs, ha⟩ | ⟨hs, ha⟩
        · rw [hs, ha]
          exact h
        · rw [hs, ha]
          simp
      · exact h

theorem reach_forward_aux :
    ∀ (ops : List Op) (t : Tracker),
      (t.status ≠ Status.pending → t.isActive = false) →
      ((ops.foldl (fun u op => applyOp op u) t).status ≠ Status.pending →
        (ops.foldl (fun u op => applyOp op u) t).isActive = false) := by
  intro ops
  induction ops with
  | nil => intro t h; exact h
  | cons op rest ih =>
      intro t h
      exact ih (applyOp op t) (applyOp_forward op t h)

theorem reach_iff_aux :
    ∀ (ops : List Op) (t : Tracker),
      (∀ op ∈ ops, ∀ n, op ≠ Op.patch n Status.pending) →
      (t.isActive = false ↔ t.status ≠ Status.pending) →
      ((ops.foldl (fun u op => applyOp op u) t).isActive = false ↔
        (ops.foldl (fun u op => applyOp op u) t).status ≠ Status.pending) := by
  intro ops
  induction ops with
  | nil => intro t _ h; exact h
  | cons op rest ih =>
      intro t hnp h
      exact ih (applyOp op t)
        (fun u hu n => hnp u (List.mem_cons_of_mem _ hu) n)
        (applyOp_iff op t (fun n => hnp op (List.mem_cons_self op rest) n) h)

/-- C9 counterexample: the admin status route may set a tracker back to
`pending` without reactivating it. From a freshly created tracker, mark
it reviewed and then patch the status to `pending`: the result has
`isActive = false` and `status = pending`, so the claimed equivalence
`isActive=false iff status is not pending` is false for a reachable
tracker. -/
theorem reach_invariant_counterexample :
    ¬ ((reach "o-9" "e@f.g" "N" (schedAt 10)
          [Op.review 5, Op.patch 6 Status.pending]).isActive = false ↔
       (reach "o-9" "e@f.g" "N" (schedAt 10)
          [Op.review 5, Op.patch 6 Status.pending]).status ≠ Status.pending) := by
  decide

/-- C9 (amended): for every tracker reachable from creation through
milestone passes, lifecycle transitions and the admin status route, the
implication `status different from pending implies isActive = false`
holds; the full equivalence `isActive = false iff status different from
pending` holds provided the admin route is never used to set the status
back to `pending` (the one operation that breaks it, per the
counterexample). -/
theorem reach_invariant_amended (oid email name : String) (sched : EmailSchedule)
    (ops : List Op) :
    ((reach oid email name sched ops).status ≠ Status.pending →
      (reach oid email name sched ops).isActive = false) ∧
    ((∀ op ∈ ops, ∀ n, op ≠ Op.patch n Status.pending) →
      ((reach oid email name sched ops).isActive = false ↔
        (reach oid email name sched ops).status ≠ Status.pending)) := by
  unfold reach
  constructor
  · exact reach_forward_aux ops (createTracker oid email name sched)
      (fun hc => absurd rfl hc)
  · intro hnp
    refine reach_iff_aux ops (createTracker oid email name sched) hnp ?_
    constructor
    · intro hfalse
      exact Bool.noConfusion hfalse
    · intro hne
      exact absurd rfl hne

/-- C9 witness: a reviewed tracker (no pending-patch in the history)
satisfies the equivalence. -/
theorem reach_invariant_amended_witness :
    (reach "o-9w" "e@f.g" "N" (schedAt 10) [Op.review 5]).isActive = false ↔
    (reach "o-9w" "e@f.g" "N" (schedAt 10) [Op.review 5]).status ≠ Status.pending :=
  (reach_invariant_amended "o-9w" "e@f.g" "N" (schedAt 10) [Op.review 5]).2
    (by
      intro op hop n
      simp only [List.mem_singleton] at hop
      subst hop
      exact fun hc => Op.noConfusion hc)

/-- C3 witness: the selection evaluated at a concrete store. -/
theorem selectDue_exactly_witness :
    selectDue (startOfDay 5) (startOfDay 5 + dayMs) dbW
      = (dbW.filter (specDueFilter (startOfDay 5) (startOfDay 5 + dayMs))).take 10 ∧
    (selectDue (startOfDay 5) (startOfDay 5 + dayMs) dbW).length ≤ 10 ∧
    ∀ t ∈ selectDue (startOfDay 5) (startOfDay 5 + dayMs) dbW,
      specDueFilter (startOfDay 5) (startOfDay 5 + dayMs) t = true :=
  selectDue_exactly 5 dbW
